import Mathlib

/-!
Verification development for the structured-text extraction core of the
task-to-code repository.  The Python functions `_parse_code_response`,
`_parse_test_response`, `_detect_language_from_path` (src/claude_generator.py),
`_extract_acceptance_criteria` (src/confluence_client.py) and
`_extract_requirements_from_content` (src/pipeline.py) are embedded as
executable Lean functions.  Python string primitives (`strip`, `startswith`,
`lower`, `split`, `join`, `replace`, `lstrip`, `in`, slicing, `isdigit`,
`isalnum`, `os.path.splitext`) are modelled over `List Char` so that every
definition reduces in the kernel.
-/

/-- Model of the character class stripped by Python `str.strip()` (ASCII whitespace). -/
def pyIsSpace (c : Char) : Bool :=
  c = ' ' || c = '\t' || c = '\n' || c = '\r' || c = '\x0b' || c = '\x0c'

/-- Model of Python `str.strip()`: drop whitespace from both ends. -/
def pyStrip (s : String) : String :=
  ⟨((s.data.dropWhile pyIsSpace).reverse.dropWhile pyIsSpace).reverse⟩

/-- Model of Python `str.startswith(p)`. -/
def pyStartswith (s p : String) : Bool :=
  p.data.isPrefixOf s.data

/-- Model of Python `str.lower()` (ASCII case folding). -/
def pyLower (s : String) : String :=
  ⟨s.data.map Char.toLower⟩

/-- Model of Python `s.split('\n')`. -/
def pySplitLines (s : String) : List String :=
  (s.data.splitOn '\n').map fun l => ⟨l⟩

/-- Model of Python `'\n'.join(ls)`. -/
def pyJoinLines (ls : List String) : String :=
  ⟨['\n'].intercalate (ls.map String.data)⟩

/-- Fuel-driven worker for `pyReplace`; fuel is the length of the scanned list,
which suffices because the pattern is non-empty at every call site. -/
def replaceFuel (pat repl : List Char) : Nat → List Char → List Char
  | 0, l => l
  | _ + 1, [] => []
  | n + 1, a :: as =>
    if pat.isPrefixOf (a :: as) then
      repl ++ replaceFuel pat repl n ((a :: as).drop pat.length)
    else
      a :: replaceFuel pat repl n as

/-- Model of Python `s.replace(pat, repl)` (all non-overlapping occurrences,
left to right; call sites always use a non-empty pattern). -/
def pyReplace (s pat repl : String) : String :=
  ⟨replaceFuel pat.data repl.data s.data.length s.data⟩

/-- Boolean infix test on lists, structural in the scanned list. -/
def isInfixB (pat : List Char) : List Char → Bool
  | [] => pat.isEmpty
  | a :: as => pat.isPrefixOf (a :: as) || isInfixB pat as

/-- Model of the Python membership test `needle in hay` on strings. -/
def pyIn (needle hay : String) : Bool :=
  isInfixB needle.data hay.data

/-- Characters stripped by `line.lstrip('- *•0123456789. ')` in the harvesters. -/
def markerChars : List Char :=
  ['-', ' ', '*', '•', '0', '1', '2', '3', '4', '5', '6', '7', '8', '9', '.']

/-- Model of `line.lstrip('- *•0123456789. ')`. -/
def pyLstripMarkers (s : String) : String :=
  ⟨s.data.dropWhile fun c => markerChars.contains c⟩

/-- Model of Python `str.isdigit()` restricted to ASCII digits: non-empty and
all characters are digits. -/
def pyIsdigit (cs : List Char) : Bool :=
  !cs.isEmpty && cs.all Char.isDigit

/-- The numbered-list test `line[0:2].replace('.', '').isdigit()`. -/
def digitMarker (s : String) : Bool :=
  pyIsdigit ((s.data.take 2).filter fun c => c != '.')

/-- The bullet test `line.startswith(('-', '*', '•'))`. -/
def bulletMarker (s : String) : Bool :=
  pyStartswith s "-" || pyStartswith s "*" || pyStartswith s "•"

/-- The extension table of `_detect_language_from_path` (verbatim, including
the upper-case key `".R"`). -/
def extensionTable : List (String × String) :=
  [(".py", "python"), (".js", "javascript"), (".ts", "typescript"),
   (".java", "java"), (".cpp", "cpp"), (".c", "c"), (".cs", "csharp"),
   (".php", "php"), (".rb", "ruby"), (".go", "go"), (".rs", "rust"),
   (".swift", "swift"), (".kt", "kotlin"), (".scala", "scala"),
   (".R", "r"), (".sh", "bash"), (".sql", "sql"), (".html", "html"),
   (".css", "css"), (".scss", "scss"), (".yaml", "yaml"), (".yml", "yaml"),
   (".json", "json"), (".xml", "xml"), (".md", "markdown")]

/-- Index of the last occurrence of `c`, or `-1` when absent (Python `rfind`). -/
def rfindChar : List Char → Char → Int
  | [], _ => -1
  | a :: as, c =>
    let r := rfindChar as c
    if r ≥ 0 then r + 1 else if a = c then 0 else -1

/-- Model of the extension component of `os.path.splitext` (POSIX rules: the
extension starts at the last dot after the last slash, and leading dots of the
basename never open an extension). -/
def splitextExt (p : String) : String :=
  let cs := p.data
  let sepIndex := rfindChar cs '/'
  let dotIndex := rfindChar cs '.'
  if dotIndex > sepIndex then
    let between := (cs.take dotIndex.toNat).drop (sepIndex + 1).toNat
    if between.any (fun c => c != '.') then ⟨cs.drop dotIndex.toNat⟩ else ""
  else ""

/-- Embedding of `_detect_language_from_path`: look the lower-cased extension
up in `extensionTable`, defaulting to `"text"`. -/
def detectLanguageFromPath (filePath : String) : String :=
  ((extensionTable.lookup (pyLower (splitextExt filePath))).getD "text")

/-- One extracted file: `{'path': ..., 'content': ..., 'language': ...}`. -/
structure FileArtifact where
  path : String
  content : String
  language : String
deriving DecidableEq, Repr

/-- The result dictionary built by `_parse_code_response`. -/
structure CodeResult where
  taskKey : String
  files : List FileArtifact
  analysis : String
  notes : String
  dependencies : List String
deriving DecidableEq, Repr

/-- Loop state of `_parse_code_response`, together with the accumulated result
fields (`current_section`, `current_file`, `current_content` and the growing
result dictionary). -/
structure CodeState where
  sec : Option String
  curFile : Option String
  curContent : List String
  files : List FileArtifact
  analysis : String
  notes : String
  deps : List String
deriving DecidableEq, Repr

/-- Truthiness of the Python variable `current_file` (`None` and `""` are falsy). -/
def truthyOpt : Option String → Bool
  | none => false
  | some s => s != ""

/-- Initial loop state of `_parse_code_response`. -/
def initCodeState : CodeState :=
  ⟨none, none, [], [], "", "", []⟩

/-- Loop body of `_parse_code_response` for a single line. -/
def codeStep (st : CodeState) (line : String) : CodeState :=
  let ls := pyStrip line
  if pyStartswith ls "## Analysis" then { st with sec := some "analysis" }
  else if pyStartswith ls "## Files to Create/Modify" then { st with sec := some "files" }
  else if pyStartswith ls "## Implementation Notes" then { st with sec := some "notes" }
  else if pyStartswith ls "## Dependencies" then { st with sec := some "dependencies" }
  else if st.sec = some "files" ∧ pyStartswith ls "### File:" then
    { st with
      files :=
        if truthyOpt st.curFile then
          st.files ++ [⟨st.curFile.getD "", pyJoinLines st.curContent,
            detectLanguageFromPath (st.curFile.getD "")⟩]
        else st.files
      curFile := some (pyStrip (pyReplace ls "### File:" ""))
      curContent := [] }
  else if st.sec = some "files" ∧ truthyOpt st.curFile then
    if pyStartswith ls "```" ∧ st.curContent = [] then st
    else if pyStartswith ls "```" ∧ st.curContent ≠ [] then st
    else { st with curContent := st.curContent ++ [line] }
  else if st.sec = some "analysis" then { st with analysis := st.analysis ++ line ++ "\n" }
  else if st.sec = some "notes" then { st with notes := st.notes ++ line ++ "\n" }
  else if st.sec = some "dependencies" then
    if ls ≠ "" ∧ ¬ pyStartswith ls "#" then { st with deps := st.deps ++ [ls] } else st
  else st

/-- The scan phase of `_parse_code_response`: fold the loop body over the lines. -/
def scanCode (lines : List String) : CodeState :=
  lines.foldl codeStep initCodeState

/-- The finalization after the loop of `_parse_code_response`
(`if current_file and current_content: ...`). -/
def finalizeCode (taskKey : String) (st : CodeState) : CodeResult :=
  if truthyOpt st.curFile ∧ st.curContent ≠ [] then
    ⟨taskKey,
     st.files ++ [⟨st.curFile.getD "", pyJoinLines st.curContent,
       detectLanguageFromPath (st.curFile.getD "")⟩],
     st.analysis, st.notes, st.deps⟩
  else
    ⟨taskKey, st.files, st.analysis, st.notes, st.deps⟩

/-- Embedding of `_parse_code_response` on a pre-split line list. -/
def parseCodeLines (taskKey : String) (lines : List String) : CodeResult :=
  finalizeCode taskKey (scanCode lines)

/-- Embedding of `_parse_code_response` (`task_key` is `task_data.get('key', 'unknown')`,
passed here directly). -/
def parseCodeResponse (taskKey response : String) : CodeResult :=
  parseCodeLines taskKey (pySplitLines response)

/-- The result dictionary built by `_parse_test_response`. -/
structure TestResult where
  testFiles : List FileArtifact
  strategy : String
  dependencies : List String
  runInstructions : String
deriving DecidableEq, Repr

/-- Loop state of `_parse_test_response`. -/
structure TestState where
  sec : Option String
  curFile : Option String
  curContent : List String
  testFiles : List FileArtifact
  strategy : String
  deps : List String
  runInstructions : String
deriving DecidableEq, Repr

/-- Initial loop state of `_parse_test_response`. -/
def initTestState : TestState :=
  ⟨none, none, [], [], "", [], ""⟩

/-- Loop body of `_parse_test_response` for a single line. -/
def testStep (st : TestState) (line : String) : TestState :=
  let ls := pyStrip line
  if pyStartswith ls "## Test Strategy" then { st with sec := some "strategy" }
  else if pyStartswith ls "## Test Files" then { st with sec := some "files" }
  else if pyStartswith ls "## Test Dependencies" then { st with sec := some "dependencies" }
  else if pyStartswith ls "## Running the Tests" then { st with sec := some "instructions" }
  else if st.sec = some "files" ∧ pyStartswith ls "### File:" then
    { st with
      testFiles :=
        if truthyOpt st.curFile then
          st.testFiles ++ [⟨st.curFile.getD "", pyJoinLines st.curContent,
            detectLanguageFromPath (st.curFile.getD "")⟩]
        else st.testFiles
      curFile := some (pyStrip (pyReplace ls "### File:" ""))
      curContent := [] }
  else if st.sec = some "files" ∧ truthyOpt st.curFile then
    if pyStartswith ls "```" ∧ st.curContent = [] then st
    else if pyStartswith ls "```" ∧ st.curContent ≠ [] then st
    else { st with curContent := st.curContent ++ [line] }
  else if st.sec = some "strategy" then { st with strategy := st.strategy ++ line ++ "\n" }
  else if st.sec = some "dependencies" then
    if ls ≠ "" ∧ ¬ pyStartswith ls "#" then { st with deps := st.deps ++ [ls] } else st
  else if st.sec = some "instructions" then
    { st with runInstructions := st.runInstructions ++ line ++ "\n" }
  else st

/-- The scan phase of `_parse_test_response`. -/
def scanTest (lines : List String) : TestState :=
  lines.foldl testStep initTestState

/-- The finalization after the loop of `_parse_test_response`. -/
def finalizeTest (st : TestState) : TestResult :=
  if truthyOpt st.curFile ∧ st.curContent ≠ [] then
    ⟨st.testFiles ++ [⟨st.curFile.getD "", pyJoinLines st.curContent,
       detectLanguageFromPath (st.curFile.getD "")⟩],
     st.strategy, st.deps, st.runInstructions⟩
  else
    ⟨st.testFiles, st.strategy, st.deps, st.runInstructions⟩

/-- Embedding of `_parse_test_response` on a pre-split line list. -/
def parseTestLines (lines : List String) : TestResult :=
  finalizeTest (scanTest lines)

/-- Embedding of `_parse_test_response`. -/
def parseTestResponse (response : String) : TestResult :=
  parseTestLines (pySplitLines response)

/-- Loop state of `_extract_acceptance_criteria` (the `broke` flag models the
Python `break`: once set, later lines are not processed). -/
structure AcState where
  inSec : Bool
  broke : Bool
  items : List String
deriving DecidableEq, Repr

/-- Loop body of `_extract_acceptance_criteria` for a single line. -/
def acStep (st : AcState) (rawLine : String) : AcState :=
  if st.broke then st
  else
    let line := pyStrip rawLine
    if pyIn "acceptance criteria" (pyLower line) then { st with inSec := true }
    else if st.inSec then
      if pyStartswith line "#" || pyStartswith line "**" then { st with broke := true }
      else if bulletMarker line || digitMarker line then
        { st with items := st.items ++ [pyLstripMarkers line] }
      else st
    else st

/-- Embedding of `_extract_acceptance_criteria`. -/
def extractAcceptanceCriteria (description : String) : List String :=
  ((pySplitLines description).foldl acStep ⟨false, false, []⟩).items

/-- Trigger keywords of `_extract_requirements_from_content`. -/
def reqKeywords : List String :=
  ["requirements", "acceptance criteria", "should", "must"]

/-- Loop state of `_extract_requirements_from_content`. -/
structure ReqState where
  inReq : Bool
  broke : Bool
  items : List String
deriving DecidableEq, Repr

/-- Loop body of `_extract_requirements_from_content` for a single line. -/
def reqStep (st : ReqState) (rawLine : String) : ReqState :=
  if st.broke then st
  else
    let line := pyStrip rawLine
    if reqKeywords.any (fun k => pyIn k (pyLower line)) then { st with inReq := true }
    else if st.inReq then
      if bulletMarker line || digitMarker line then
        { st with items := st.items ++ [pyLstripMarkers line] }
      else if line != "" && !(line.data.any Char.isAlphanum) then
        { st with broke := true }
      else st
    else st

/-- Embedding of `_extract_requirements_from_content`. -/
def extractRequirementsFromContent (content : String) : List String :=
  ((pySplitLines content).foldl reqStep ⟨false, false, []⟩).items

/-- A line that, inside the Files section with a file in progress, matches
neither a section header of `_parse_code_response` nor the per-file marker:
such a line is routed to the fence-or-content branch. -/
def inertFileLine (l : String) : Bool :=
  !pyStartswith (pyStrip l) "## Analysis" &&
  !pyStartswith (pyStrip l) "## Files to Create/Modify" &&
  !pyStartswith (pyStrip l) "## Implementation Notes" &&
  !pyStartswith (pyStrip l) "## Dependencies" &&
  !pyStartswith (pyStrip l) "### File:"

/-- A line whose trimmed form matches none of the four section headers of
`_parse_code_response`. -/
def noHeaderLine (l : String) : Bool :=
  !pyStartswith (pyStrip l) "## Analysis" &&
  !pyStartswith (pyStrip l) "## Files to Create/Modify" &&
  !pyStartswith (pyStrip l) "## Implementation Notes" &&
  !pyStartswith (pyStrip l) "## Dependencies"

/-- Render a content string as a single file block: a Files section header, a
file-header line, an opening fence, the content, and a closing fence. -/
def renderFileBlock (c : String) : String :=
  "## Files to Create/Modify\n### File: src/a.py\n```\n" ++ c ++ "\n```"

/-- Concrete input of section 8 of the spec, as recited by claim C1. -/
def c1Input : String :=
  "## Files to Create/Modify\n### File: src/a.py\n```python\nx = 1\n```\n\n### File: src/b.py\n```python\ny = 2\n```\n\n## Dependencies\n- requests>=2.0.0\n- pyyaml"

/-- Two prefixes of the same string agree on their first three characters, so a
string starting with `p` cannot also start with a `q` that differs from `p`
within the first three characters. -/
theorem pyStartswith_disjoint (s p q : String) (h : pyStartswith s p = true)
    (h3p : 3 ≤ p.data.length) (h3q : 3 ≤ q.data.length)
    (hne : p.data.take 3 ≠ q.data.take 3) : pyStartswith s q = false := by
  cases hq : pyStartswith s q with
  | false => rfl
  | true =>
    exfalso
    unfold pyStartswith at h hq
    rw [ List.isPrefixOf_iff_prefix] at h hq
    obtain ⟨t, ht⟩ := h
    obtain ⟨u, hu⟩ := hq
    apply hne
    have hp3 : p.data.take 3 = s.data.take 3 := by
      rw [← ht, List.take_append_eq_append_take, Nat.sub_eq_zero_of_le h3p,
        List.take_zero, List.append_nil]
    have hq3 : q.data.take 3 = s.data.take 3 := by
      rw [← hu, List.take_append_eq_append_take, Nat.sub_eq_zero_of_le h3q,
        List.take_zero, List.append_nil]
    rw [hp3, hq3]

/-- A line whose trimmed form starts with the file marker satisfies none of the
four section-header tests of `_parse_code_response`. -/
theorem fileMarker_not_code_header (s : String)
    (h : pyStartswith s "### File:" = true) :
    pyStartswith s "## Analysis" = false ∧
    pyStartswith s "## Files to Create/Modify" = false ∧
    pyStartswith s "## Implementation Notes" = false ∧
    pyStartswith s "## Dependencies" = false :=
  ⟨pyStartswith_disjoint s _ _ h (by decide) (by decide) (by decide),
   pyStartswith_disjoint s _ _ h (by decide) (by decide) (by decide),
   pyStartswith_disjoint s _ _ h (by decide) (by decide) (by decide),
   pyStartswith_disjoint s _ _ h (by decide) (by decide) (by decide)⟩

/-- A line whose trimmed form starts with the file marker satisfies none of the
four section-header tests of `_parse_test_response`. -/
theorem fileMarker_not_test_header (s : String)
    (h : pyStartswith s "### File:" = true) :
    pyStartswith s "## Test Strategy" = false ∧
    pyStartswith s "## Test Files" = false ∧
    pyStartswith s "## Test Dependencies" = false ∧
    pyStartswith s "## Running the Tests" = false :=
  ⟨pyStartswith_disjoint s _ _ h (by decide) (by decide) (by decide),
   pyStartswith_disjoint s _ _ h (by decide) (by decide) (by decide),
   pyStartswith_disjoint s _ _ h (by decide) (by decide) (by decide),
   pyStartswith_disjoint s _ _ h (by decide) (by decide) (by decide)⟩

/-- A line whose trimmed form starts with the fence token satisfies neither the
section-header tests of `_parse_code_response` nor the file-marker test. -/
theorem fence_not_code_special (s : String)
    (h : pyStartswith s "```" = true) :
    pyStartswith s "## Analysis" = false ∧
    pyStartswith s "## Files to Create/Modify" = false ∧
    pyStartswith s "## Implementation Notes" = false ∧
    pyStartswith s "## Dependencies" = false ∧
    pyStartswith s "### File:" = false :=
  ⟨pyStartswith_disjoint s _ _ h (by decide) (by decide) (by decide),
   pyStartswith_disjoint s _ _ h (by decide) (by decide) (by decide),
   pyStartswith_disjoint s _ _ h (by decide) (by decide) (by decide),
   pyStartswith_disjoint s _ _ h (by decide) (by decide) (by decide),
   pyStartswith_disjoint s _ _ h (by decide) (by decide) (by decide)⟩

/-- C1.  The claim is false on the code: for the section-8 input, the blank
line after each closing fence is appended to the file body (so each content
ends with a trailing newline), and dependency lines are appended verbatim with
their leading dash (`_parse_code_response` never strips bullet markers). -/
theorem c1_counterexample :
    ¬ ((parseCodeResponse "k" c1Input).files.map (fun f => (f.path, f.content))
        = [("src/a.py", "x = 1"), ("src/b.py", "y = 2")]
      ∧ (parseCodeResponse "k" c1Input).dependencies
        = ["requests>=2.0.0", "pyyaml"]) := by
  decide

/-- C1 amended.  For the concrete input of section 8, `_parse_code_response`
returns files `[{path: "src/a.py", content: "x = 1\n"}, {path: "src/b.py",
content: "y = 2\n"}]` (each body keeps the blank line before the next
trigger) and dependencies `["- requests>=2.0.0", "- pyyaml"]` (bullet markers
are kept verbatim). -/
theorem c1_amended :
    (parseCodeResponse "k" c1Input).files
      = [⟨"src/a.py", "x = 1\n", "python"⟩, ⟨"src/b.py", "y = 2\n", "python"⟩]
    ∧ (parseCodeResponse "k" c1Input).dependencies
      = ["- requests>=2.0.0", "- pyyaml"] := by
  decide

/-- C2.  The claim is false on the code: a file header immediately followed by
another file header is not dropped — `_parse_code_response` appends the
previous file unconditionally at a new file-header line, so `a.py` appears in
the result with empty content. -/
theorem c2_counterexample :
    (parseCodeResponse "k" "## Files to Create/Modify\n### File: a.py\n### File: b.py\nx").files
      = [⟨"a.py", "", "python"⟩, ⟨"b.py", "x", "python"⟩]
    ∧ (⟨"a.py", "", "python"⟩ : FileArtifact)
        ∈ (parseCodeResponse "k" "## Files to Create/Modify\n### File: a.py\n### File: b.py\nx").files := by
  decide

/-- C2 amended.  In the Files section, when a file-header line arrives while a
previous file (with truthy path) is in progress, the previous file is appended
to the result's file list unconditionally — even when its accumulated content
is empty.  The non-empty-content check exists only at end of input.  Stated for
both `_parse_code_response` and `_parse_test_response` loop bodies. -/
theorem c2_amended (st : CodeState) (st2 : TestState) (line f g : String)
    (hmark : pyStartswith (pyStrip line) "### File:" = true) :
    (st.sec = some "files" → st.curFile = some f → f ≠ "" →
      codeStep st line =
        { st with
          files := st.files ++ [⟨f, pyJoinLines st.curContent, detectLanguageFromPath f⟩]
          curFile := some (pyStrip (pyReplace (pyStrip line) "### File:" ""))
          curContent := [] })
    ∧ (st2.sec = some "files" → st2.curFile = some g → g ≠ "" →
      testStep st2 line =
        { st2 with
          testFiles := st2.testFiles ++ [⟨g, pyJoinLines st2.curContent, detectLanguageFromPath g⟩]
          curFile := some (pyStrip (pyReplace (pyStrip line) "### File:" ""))
          curContent := [] }) := by
  obtain ⟨hc1, hc2, hc3, hc4⟩ := fileMarker_not_code_header (pyStrip line) hmark
  obtain ⟨ht1, ht2, ht3, ht4⟩ := fileMarker_not_test_header (pyStrip line) hmark
  constructor
  · intro hsec hfile hf
    simp [codeStep, hc1, hc2, hc3, hc4, hsec, hfile, hmark, truthyOpt, hf]
  · intro hsec hfile hg
    simp [testStep, ht1, ht2, ht3, ht4, hsec, hfile, hmark, truthyOpt, hg]

/-- C2 witness: instantiation of the amended theorem at a concrete state in
which the in-progress file has empty accumulated content. -/
theorem c2_amended_witness :
    codeStep ⟨some "files", some "a.py", [], [], "", "", []⟩ "### File: b.py" =
      ⟨some "files", some "b.py", [],
        [⟨"a.py", "", "python"⟩], "", "", []⟩ := by
  have h := (c2_amended ⟨some "files", some "a.py", [], [], "", "", []⟩
    initTestState "### File: b.py" "a.py" "g" (by decide)).1 rfl rfl (by decide)
  rw [h]
  decide

/-- Effect of the `_parse_code_response` loop body on a line that is neither a
section header nor a file header, while the Files section is active and a file
with truthy path is in progress: a fence line leaves the state unchanged, any
other line is appended verbatim to the in-progress content. -/
theorem codeStep_inert (st : CodeState) (l : String)
    (hsec : st.sec = some "files") (hfile : truthyOpt st.curFile = true)
    (hin : inertFileLine l = true) :
    codeStep st l =
      if pyStartswith (pyStrip l) "```" then st
      else { st with curContent := st.curContent ++ [l] } := by
  simp only [inertFileLine, Bool.and_eq_true, Bool.not_eq_true'] at hin
  obtain ⟨⟨⟨⟨h1, h2⟩, h3⟩, h4⟩, h5⟩ := hin
  by_cases hf : pyStartswith (pyStrip l) "```" = true
  · by_cases hc : st.curContent = []
    · simp [codeStep, h1, h2, h3, h4, h5, hsec, hfile, hf, hc]
    · simp [codeStep, h1, h2, h3, h4, h5, hsec, hfile, hf, hc]
  · simp at hf
    simp [codeStep, h1, h2, h3, h4, h5, hsec, hfile, hf]

/-- Folding the `_parse_code_response` loop body over inert lines while a file
is in progress: every fence line is consumed without any state change, and all
other lines are appended, in order, to the in-progress content; no other state
component moves. -/
theorem foldl_codeStep_inert (cs : List String) :
    ∀ st : CodeState, st.sec = some "files" → truthyOpt st.curFile = true →
    (∀ l ∈ cs, inertFileLine l = true) →
    cs.foldl codeStep st =
      { st with curContent :=
          st.curContent ++ cs.filter (fun l => !pyStartswith (pyStrip l) "```") } := by
  induction cs with
  | nil => intro st _ _ _; simp
  | cons l ls ih =>
    intro st hsec hfile hin
    have hl := hin l (List.mem_cons_self l ls)
    have hls : ∀ x ∈ ls, inertFileLine x = true :=
      fun x hx => hin x (List.mem_cons_of_mem l hx)
    rw [List.foldl_cons, codeStep_inert st l hsec hfile hl]
    by_cases hf : pyStartswith (pyStrip l) "```" = true
    · rw [if_pos hf, ih st hsec hfile hls]
      simp [List.filter_cons, hf]
    · simp only [Bool.not_eq_true] at hf
      rw [if_neg (by simp [hf])]
      rw [ih { st with curContent := st.curContent ++ [l] } hsec hfile hls]
      simp [List.filter_cons, hf]

/-- C3.  The claim is false on the code: content does not stop at the file's
second fence line.  After the closing fence, further lines before the next
trigger are still appended, so for the input below the file's content is
`"x\ntrail"`, not the claimed `"x"` (the lines strictly between the first and
second fence). -/
theorem c3_counterexample :
    (parseCodeResponse "k" "## Files to Create/Modify\n### File: a\n```\nx\n```\ntrail").files.map
        FileArtifact.content
      ≠ ["x"]
    ∧ (parseCodeResponse "k" "## Files to Create/Modify\n### File: a\n```\nx\n```\ntrail").files.map
        FileArtifact.content
      = ["x\ntrail"] := by
  decide

/-- C3 amended.  While a file is in progress in the Files section, every line
whose trimmed form starts with the triple-backtick token is consumed and never
appears in the file's content — and the resulting content is exactly all
non-fence lines between the file's header and the next trigger (not merely the
lines between the first and second fence), in order. -/
theorem c3_amended (st : CodeState) (cs : List String)
    (hsec : st.sec = some "files") (hfile : truthyOpt st.curFile = true)
    (hin : ∀ l ∈ cs, inertFileLine l = true) :
    (cs.foldl codeStep st).curContent
      = st.curContent ++ cs.filter (fun l => !pyStartswith (pyStrip l) "```")
    ∧ (cs.foldl codeStep st).files = st.files
    ∧ (cs.foldl codeStep st).curFile = st.curFile
    ∧ (cs.foldl codeStep st).sec = st.sec := by
  rw [foldl_codeStep_inert cs st hsec hfile hin]
  exact ⟨rfl, rfl, rfl, rfl⟩

/-- C3 witness: a fence-delimited run with a trailing line; the two fence lines
are consumed and the content is the two remaining lines. -/
theorem c3_amended_witness :
    (["```", "x", "```", "trail"].foldl codeStep
        ⟨some "files", some "a", [], [], "", "", []⟩).curContent = ["x", "trail"] := by
  have h := (c3_amended ⟨some "files", some "a", [], [], "", "", []⟩
    ["```", "x", "```", "trail"] rfl (by decide) (by decide)).1
  rw [h]
  decide

/-- C6.  At end of input, a file in progress (truthy path) with non-empty
accumulated content is finalized and appended to the result's file list, with
content the newline-join of the accumulated lines and language looked up from
the path; with empty accumulated content the in-progress file is dropped.
Stated for both `_parse_code_response` and `_parse_test_response`. -/
theorem c6_confirmed (k : String) (linesC linesT : List String) (p q : String) :
    ((scanCode linesC).curFile = some p → p ≠ "" →
      (((scanCode linesC).curContent ≠ [] →
        (parseCodeLines k linesC).files
          = (scanCode linesC).files
            ++ [⟨p, pyJoinLines (scanCode linesC).curContent, detectLanguageFromPath p⟩])
      ∧ ((scanCode linesC).curContent = [] →
        (parseCodeLines k linesC).files = (scanCode linesC).files)))
    ∧ ((scanTest linesT).curFile = some q → q ≠ "" →
      (((scanTest linesT).curContent ≠ [] →
        (parseTestLines linesT).testFiles
          = (scanTest linesT).testFiles
            ++ [⟨q, pyJoinLines (scanTest linesT).curContent, detectLanguageFromPath q⟩])
      ∧ ((scanTest linesT).curContent = [] →
        (parseTestLines linesT).testFiles = (scanTest linesT).testFiles))) := by
  constructor
  · intro hfile hp
    constructor
    · intro hc
      simp [parseCodeLines, finalizeCode, hfile, truthyOpt, hp, hc]
    · intro hc
      simp [parseCodeLines, finalizeCode, hfile, truthyOpt, hc]
  · intro hfile hq
    constructor
    · intro hc
      simp [parseTestLines, finalizeTest, hfile, truthyOpt, hq, hc]
    · intro hc
      simp [parseTestLines, finalizeTest, hfile, truthyOpt, hc]

/-- C6 witness: a code parse whose last file has non-empty content is appended;
a test parse whose last file has empty content is dropped. -/
theorem c6_confirmed_witness :
    (parseCodeLines "k" ["## Files to Create/Modify", "### File: a.py", "x"]).files
      = (scanCode ["## Files to Create/Modify", "### File: a.py", "x"]).files
        ++ [⟨"a.py",
              pyJoinLines (scanCode ["## Files to Create/Modify", "### File: a.py", "x"]).curContent,
              detectLanguageFromPath "a.py"⟩]
    ∧ (parseTestLines ["## Test Files", "### File: t.py"]).testFiles
      = (scanTest ["## Test Files", "### File: t.py"]).testFiles := by
  constructor
  · exact ((c6_confirmed "k" ["## Files to Create/Modify", "### File: a.py", "x"]
      ["## Test Files", "### File: t.py"] "a.py" "t.py").1 (by decide) (by decide)).1 (by decide)
  · exact ((c6_confirmed "k" ["## Files to Create/Modify", "### File: a.py", "x"]
      ["## Test Files", "### File: t.py"] "a.py" "t.py").2 (by decide) (by decide)).2 (by decide)

/-- Lines matching no section header leave the initial state of
`_parse_code_response` unchanged: before a recognized header, nothing
accumulates anywhere. -/
theorem foldl_codeStep_noHeader (ls : List String)
    (h : ∀ l ∈ ls, noHeaderLine l = true) :
    ls.foldl codeStep initCodeState = initCodeState := by
  induction ls with
  | nil => rfl
  | cons l t ih =>
    have hl := h l (List.mem_cons_self l t)
    simp only [noHeaderLine, Bool.and_eq_true, Bool.not_eq_true'] at hl
    obtain ⟨⟨⟨h1, h2⟩, h3⟩, h4⟩ := hl
    rw [List.foldl_cons]
    have hstep : codeStep initCodeState l = initCodeState := by
      simp [codeStep, initCodeState, h1, h2, h3, h4]
    rw [hstep]
    exact ih fun x hx => h x (List.mem_cons_of_mem l hx)

/-- C9.  For every input none of whose lines matches a section header of
`_parse_code_response`, the parse result has an empty file list, empty
dependencies and empty analysis and notes buffers: the "none" section never
accumulates. -/
theorem c9_confirmed (k s : String)
    (h : ∀ l ∈ pySplitLines s, noHeaderLine l = true) :
    parseCodeResponse k s = ⟨k, [], "", "", []⟩ := by
  unfold parseCodeResponse parseCodeLines scanCode
  rw [foldl_codeStep_noHeader (pySplitLines s) h]
  rfl

/-- C9 witness: a two-line input with no header lines parses to the empty
result. -/
theorem c9_confirmed_witness :
    parseCodeResponse "k" "hello\nworld" = ⟨"k", [], "", "", []⟩ :=
  c9_confirmed "k" "hello\nworld" (by decide)

/-- C7.  Every extractor is a total function of its input: for every input
string each of the four embedded extractors returns a result.  The embeddings
use only total models of the Python primitives the source calls (`split`,
`strip`, `startswith`, `replace`, `join`, `lstrip`, slicing, `isdigit`,
`isalnum`, `in`), none of which can raise, so malformed structure — missing
sections, absent file markers, unbalanced fences — yields partial or empty
fields rather than a failure. -/
theorem c7_confirmed :
    ∀ k s : String, ∃ r₁ r₂ r₃ r₄,
      parseCodeResponse k s = r₁ ∧ parseTestResponse s = r₂ ∧
      extractAcceptanceCriteria s = r₃ ∧ extractRequirementsFromContent s = r₄ :=
  fun _ _ => ⟨_, _, _, _, rfl, rfl, rfl, rfl⟩

/-- Once the requirements scan has hit its `break`, later lines change nothing. -/
theorem foldl_reqStep_broke (ls : List String) :
    ∀ st : ReqState, st.broke = true → ls.foldl reqStep st = st := by
  induction ls with
  | nil => intro st _; rfl
  | cons l t ih =>
    intro st hb
    rw [List.foldl_cons, show reqStep st l = st by simp [reqStep, hb]]
    exact ih st hb

/-- C4.  The claim is false on the code: inside a zone of
`_extract_requirements_from_content`, a line whose trimmed form starts with a
bullet can still yield no item — the start-trigger test runs first, so
`"- must do X"` (containing the keyword `must`) only re-arms the zone and is
consumed without being harvested. -/
theorem c4_counterexample :
    extractRequirementsFromContent "requirements\n- must do X\n- second" = ["second"]
    ∧ "must do X" ∉ extractRequirementsFromContent "requirements\n- must do X\n- second" := by
  decide

/-- C4 amended.  Inside a harvester zone, a line that does not itself satisfy
the variant's start-trigger test (and, in the acceptance variant, is not an
end-condition line starting with `#` or `**`) yields an item iff its trimmed
form starts with `-`, `*` or `•`, or its first two characters with any `.`
removed form a non-empty all-digit string; the harvested item is the line with
all leading `-`, space, `*`, `•`, digit and `.` characters stripped, and a
line matching neither form yields no item and no error. -/
theorem c4_amended (st : AcState) (st2 : ReqState) (rawLine : String) :
    (st.broke = false → st.inSec = true →
      pyIn "acceptance criteria" (pyLower (pyStrip rawLine)) = false →
      (pyStartswith (pyStrip rawLine) "#" || pyStartswith (pyStrip rawLine) "**") = false →
      (((bulletMarker (pyStrip rawLine) || digitMarker (pyStrip rawLine)) = true →
          (acStep st rawLine).items = st.items ++ [pyLstripMarkers (pyStrip rawLine)])
      ∧ ((bulletMarker (pyStrip rawLine) || digitMarker (pyStrip rawLine)) = false →
          acStep st rawLine = st)))
    ∧ (st2.broke = false → st2.inReq = true →
      (reqKeywords.any fun k => pyIn k (pyLower (pyStrip rawLine))) = false →
      (((bulletMarker (pyStrip rawLine) || digitMarker (pyStrip rawLine)) = true →
          (reqStep st2 rawLine).items = st2.items ++ [pyLstripMarkers (pyStrip rawLine)])
      ∧ ((bulletMarker (pyStrip rawLine) || digitMarker (pyStrip rawLine)) = false →
          (reqStep st2 rawLine).items = st2.items))) := by
  constructor
  · intro hb hz htr hend
    rw [Bool.or_eq_false_iff] at hend
    constructor
    · intro hm
      simp [acStep, hb, hz, htr, hend.1, hend.2, hm]
    · intro hm
      rw [Bool.or_eq_false_iff] at hm
      simp [acStep, hb, hz, htr, hend.1, hend.2, hm.1, hm.2]
  · intro hb hz htr
    constructor
    · intro hm
      simp [reqStep, hb, hz, htr, hm]
    · intro hm
      rw [Bool.or_eq_false_iff] at hm
      by_cases hs : (pyStrip rawLine != "") && !((pyStrip rawLine).data.any Char.isAlphanum)
      · simp [reqStep, hb, hz, htr, hm.1, hm.2, hs]
      · simp [reqStep, hb, hz, htr, hm.1, hm.2, hs]

/-- C4 witness: in the requirements variant, a bulleted line is harvested with
its markers stripped, and a plain prose line yields no item. -/
theorem c4_amended_witness :
    (reqStep ⟨true, false, ["a"]⟩ "- second").items = ["a", "second"]
    ∧ (reqStep ⟨true, false, ["a"]⟩ "plain prose").items = ["a"] := by
  constructor
  · have h := ((c4_amended ⟨false, false, []⟩ ⟨true, false, ["a"]⟩ "- second").2
      rfl rfl (by decide)).1 (by decide)
    rw [h]
    decide
  · have h := ((c4_amended ⟨false, false, []⟩ ⟨true, false, ["a"]⟩ "plain prose").2
      rfl rfl (by decide)).2 (by decide)
    rw [h]

/-- C5.  The claim is false on the code: a non-empty line with no alphanumeric
characters does not always stop the requirements scan.  `"---"` passes the
bullet test first, is harvested as the empty item, and scanning continues, so
the later bullet still contributes. -/
theorem c5_counterexample :
    extractRequirementsFromContent "requirements\n---\n- x" = ["", "x"]
    ∧ "x" ∈ extractRequirementsFromContent "requirements\n---\n- x" := by
  decide

/-- C5 amended.  In `_extract_requirements_from_content`, a non-empty
alphanumeric-free line encountered inside the zone stops the scan only when it
also fails the bullet/number test (the bullet test runs first); such a stopping
line yields no item and no later line of the input contributes an item. -/
theorem c5_amended (st : ReqState) (rawLine : String) (rest : List String)
    (hb : st.broke = false) (hz : st.inReq = true)
    (htr : (reqKeywords.any fun k => pyIn k (pyLower (pyStrip rawLine))) = false)
    (hm : (bulletMarker (pyStrip rawLine) || digitMarker (pyStrip rawLine)) = false)
    (hne : (pyStrip rawLine != "") = true)
    (hal : (pyStrip rawLine).data.any Char.isAlphanum = false) :
    (reqStep st rawLine).items = st.items
    ∧ (reqStep st rawLine).broke = true
    ∧ (rest.foldl reqStep (reqStep st rawLine)).items = st.items := by
  rw [Bool.or_eq_false_iff] at hm
  have hstep : reqStep st rawLine = { st with broke := true } := by
    simp [reqStep, hb, hz, htr, hm.1, hm.2, hne, hal]
  rw [hstep, foldl_reqStep_broke rest { st with broke := true } rfl]
  exact ⟨rfl, rfl, rfl⟩

/-- C5 witness: the separator `"==="` fails the bullet test, stops the zone,
yields no item, and a later bulleted line contributes nothing. -/
theorem c5_amended_witness :
    (reqStep ⟨true, false, ["a"]⟩ "===").items = ["a"]
    ∧ (["- x"].foldl reqStep (reqStep ⟨true, false, ["a"]⟩ "===")).items = ["a"] := by
  have h := c5_amended ⟨true, false, ["a"]⟩ "===" ["- x"]
    rfl rfl (by decide) (by decide) (by decide) (by decide)
  exact ⟨h.1, h.2.2⟩

/-- C10.  `_detect_language_from_path` lower-cases the extension before the
table lookup, so the result depends only on the lower-cased extension (letter
case of the extension never matters); and since the table's only entry for the
R extension is the upper-case key `".R"`, any path whose extension lower-cases
to `".r"` maps to the default `"text"`, never to `"r"`. -/
theorem c10_confirmed :
    (∀ p q : String, pyLower (splitextExt p) = pyLower (splitextExt q) →
      detectLanguageFromPath p = detectLanguageFromPath q)
    ∧ (∀ p : String, pyLower (splitextExt p) = ".r" →
      detectLanguageFromPath p = "text" ∧ detectLanguageFromPath p ≠ "r") := by
  constructor
  · intro p q h
    unfold detectLanguageFromPath
    rw [h]
  · intro p h
    unfold detectLanguageFromPath
    rw [h]
    exact ⟨by decide, by decide⟩

/-- C10 witness: `a.PY` and `a.py` detect identically, and both spellings of
the R extension fall through to `"text"`. -/
theorem c10_confirmed_witness :
    detectLanguageFromPath "a.PY" = detectLanguageFromPath "a.py"
    ∧ detectLanguageFromPath "b.R" = "text"
    ∧ detectLanguageFromPath "b.r" = "text" := by
  refine ⟨c10_confirmed.1 "a.PY" "a.py" (by decide),
    (c10_confirmed.2 "b.R" (by decide)).1,
    (c10_confirmed.2 "b.r" (by decide)).1⟩

/-- No element of a `splitOnP` part satisfies the splitting predicate. -/
theorem forall_not_of_mem_splitOnP (p : Char → Bool) (xs : List Char) :
    ∀ l ∈ xs.splitOnP p, ∀ y ∈ l, p y = false := by
  induction xs with
  | nil =>
    intro l hl y hy
    rw [List.splitOnP_nil] at hl
    simp only [List.mem_singleton] at hl
    subst hl
    simp at hy
  | cons x t ih =>
    intro l hl y hy
    rw [List.splitOnP_cons] at hl
    by_cases hx : p x = true
    · rw [if_pos hx] at hl
      rcases List.mem_cons.mp hl with h | h
      · subst h; simp at hy
      · exact ih l h y hy
    · rw [if_neg hx] at hl
      obtain ⟨hd, tl, ht⟩ : ∃ hd tl, t.splitOnP p = hd :: tl := by
        cases hsp : t.splitOnP p with
        | nil => exact absurd hsp (List.splitOnP_ne_nil p t)
        | cons a b => exact ⟨a, b, rfl⟩
      rw [ht] at hl
      simp only [List.modifyHead] at hl
      rcases List.mem_cons.mp hl with h | h
      · subst h
        rcases List.mem_cons.mp hy with h2 | h2
        · subst h2; exact Bool.not_eq_true (p y) ▸ hx
        · exact ih hd (ht ▸ List.mem_cons_self hd tl) y h2
      · exact ih l (ht ▸ List.mem_cons_of_mem hd h) y hy

/-- Unfolding `intercalate` over a two-or-more element list. -/
theorem intercalate_cons_two (x : Char) (a b : List Char) (t : List (List Char)) :
    [x].intercalate (a :: b :: t) = a ++ x :: [x].intercalate (b :: t) := by
  simp [List.intercalate, List.intersperse_cons_cons]

/-- Appending one further chunk after the separator. -/
theorem intercalate_append_last (x : Char) (g : List Char) :
    ∀ cs : List (List Char), cs ≠ [] →
      [x].intercalate (cs ++ [g]) = [x].intercalate cs ++ x :: g := by
  intro cs
  induction cs with
  | nil => intro h; exact absurd rfl h
  | cons a t ih =>
    intro _
    cases t with
    | nil => simp [List.intercalate, List.intersperse]
    | cons b t2 =>
      simp only [List.cons_append]
      rw [intercalate_cons_two x a b (t2 ++ [g]), intercalate_cons_two x a b t2]
      rw [show b :: (t2 ++ [g]) = (b :: t2) ++ [g] from (List.cons_append b t2 [g]).symm]
      rw [ih (List.cons_ne_nil b t2)]
      simp [List.append_assoc]

/-- Splitting the rendered file block into its lines: the three structural
lines, then the content's own lines, then the closing fence. -/
theorem pySplitLines_render (c : String) :
    pySplitLines (renderFileBlock c)
      = "## Files to Create/Modify" :: "### File: src/a.py" :: "```" ::
        (pySplitLines c ++ ["```"]) := by
  have hdata : (renderFileBlock c).data
      = "## Files to Create/Modify".data ++ '\n' ::
        ("### File: src/a.py".data ++ '\n' ::
          ("```".data ++ '\n' :: (c.data ++ '\n' :: "```".data))) := by
    show (("## Files to Create/Modify\n### File: src/a.py\n```\n" ++ c) ++ "\n```").data = _
    simp only [String.data_append]
    rfl
  have hs : ∀ l : List Char, l.splitOn '\n' = l.splitOnP (fun y => y == '\n') :=
    fun _ => rfl
  have hc : c.data ++ '\n' :: "```".data
      = ['\n'].intercalate ((c.data.splitOn '\n') ++ ["```".data]) := by
    rw [intercalate_append_last '\n' _ _ (by rw [hs]; exact List.splitOnP_ne_nil _ _),
      List.intercalate_splitOn c.data '\n']
  have hparts : ∀ l ∈ (c.data.splitOn '\n') ++ ["```".data], '\n' ∉ l := by
    intro l hl
    rcases List.mem_append.mp hl with h | h
    · intro hmem
      have := forall_not_of_mem_splitOnP (fun y => y == '\n') c.data l (by rw [← hs]; exact h)
        '\n' hmem
      simp at this
    · simp only [List.mem_singleton] at h
      subst h
      decide
  unfold pySplitLines
  rw [hdata, hs]
  rw [List.splitOnP_first _ _ (by decide) '\n' (by decide)]
  rw [List.splitOnP_first _ _ (by decide) '\n' (by decide)]
  rw [List.splitOnP_first _ _ (by decide) '\n' (by decide)]
  rw [← hs (c.data ++ '\n' :: "```".data), hc,
    List.splitOn_intercalate _ '\n' hparts (by simp)]
  simp [hs]

/-- Joining the split lines of a string reproduces the string. -/
theorem pyJoin_pySplit (c : String) : pyJoinLines (pySplitLines c) = c := by
  unfold pyJoinLines pySplitLines
  rw [List.map_map]
  rw [show (String.data ∘ fun l : List Char => (⟨l⟩ : String)) = fun l : List Char => l from rfl]
  rw [List.map_id']
  rw [List.intercalate_splitOn c.data '\n']

/-- A split never produces the empty list of lines. -/
theorem pySplitLines_ne_nil (c : String) : pySplitLines c ≠ [] := by
  unfold pySplitLines
  intro h
  rw [List.map_eq_nil_iff] at h
  exact List.splitOnP_ne_nil _ c.data h

/-- C8.  The claim is false on the code: the round trip needs more than the
no-fence-line hypothesis.  The content `"## Dependencies"` contains no line
starting with the fence token, yet its rendered file block parses to an empty
file list (the content line re-dispatches the section away from Files, and the
in-progress file is dropped at end of input with empty content), so there is
no first FileArtifact at all. -/
theorem c8_counterexample :
    (∀ l ∈ pySplitLines "## Dependencies", pyStartswith (pyStrip l) "```" = false)
    ∧ (parseCodeResponse "k" (renderFileBlock "## Dependencies")).files = [] := by
  decide

/-- C8 amended.  For every content string none of whose lines' trimmed forms
starts with the fence token, a section header of `_parse_code_response`, or
the file marker, rendering the content as a single file block and parsing the
rendered text yields exactly one FileArtifact whose content equals the
original content string. -/
theorem c8_amended (k c : String)
    (h : ∀ l ∈ pySplitLines c,
      inertFileLine l = true ∧ pyStartswith (pyStrip l) "```" = false) :
    (parseCodeResponse k (renderFileBlock c)).files = [⟨"src/a.py", c, "python"⟩] := by
  unfold parseCodeResponse parseCodeLines scanCode
  rw [pySplitLines_render c]
  rw [List.foldl_cons, List.foldl_cons, List.foldl_cons]
  rw [show codeStep (codeStep (codeStep initCodeState "## Files to Create/Modify")
        "### File: src/a.py") "```"
      = ⟨some "files", some "src/a.py", [], [], "", "", []⟩ from by decide]
  rw [List.foldl_append]
  rw [foldl_codeStep_inert (pySplitLines c) ⟨some "files", some "src/a.py", [], [], "", "", []⟩
    rfl (by decide) (fun l hl => (h l hl).1)]
  rw [List.filter_eq_self.mpr (fun l hl => by rw [(h l hl).2]; rfl)]
  have hstep : ∀ st : CodeState, st.sec = some "files" → truthyOpt st.curFile = true →
      codeStep st "```" = st := by
    intro st h1 h2
    rw [codeStep_inert st "```" h1 h2 (by decide)]
    rw [if_pos (show pyStartswith (pyStrip "```") "```" = true from rfl)]
  rw [List.foldl_cons, List.foldl_nil, hstep]
  · simp [finalizeCode, truthyOpt, pySplitLines_ne_nil c, pyJoin_pySplit c,
      show ("src/a.py" != "") = true from rfl,
      show detectLanguageFromPath "src/a.py" = "python" from by decide]
  · rfl
  · rfl

/-- C8 witness: a two-line content string survives the render-parse round
trip verbatim. -/
theorem c8_amended_witness :
    (parseCodeResponse "k" (renderFileBlock "line1\nline2")).files
      = [⟨"src/a.py", "line1\nline2", "python"⟩] :=
  c8_amended "k" "line1\nline2" (by decide)
